import Mathlib

/-!
Verification of the ZenClock mode/timing state machine (src/index.tsx).

The module-level mutable variables of the source are collected into one
state record `St`; each event handler becomes a state-transforming
function taking the current wall-clock time `now` (milliseconds, as an
integer, mirroring `Date.now()`) as an explicit parameter.  JavaScript
number arithmetic on these values is integer arithmetic here:
`Math.floor(a/b)` for positive `b` is Euclidean division `a / b`,
`Math.ceil(a/b)` is `jsCeilDiv`, and the JS `%` operator (remainder with
the sign of the dividend) is `Int.tmod`.
-/

namespace ZenClock

/-- `Math.floor(a / b)` for positive `b`: Euclidean division on `Int`
is floor division when the divisor is positive. -/
def jsFloorDiv (a b : Int) : Int := a / b

/-- `Math.ceil(a / b)` for positive `b`. -/
def jsCeilDiv (a b : Int) : Int := -((-a) / b)

/-- The JavaScript `%` operator: remainder carrying the sign of the
dividend (truncating division). -/
def jsRem (a b : Int) : Int := Int.tmod a b

/-- `String.prototype.padStart(2, '0')`: left-pad with zeros to width 2. -/
def padStr (t : String) : String :=
  String.mk (List.replicate (2 - t.length) '0') ++ t

/-- `pad` from src/index.tsx line 44: `Math.floor(n).toString().padStart(2,'0')`.
Its arguments below are already the floored integers. -/
def pad (n : Int) : String := padStr (toString n)

/-- The `AppMode` union type of src/index.tsx line 5. -/
inductive Mode where
  | CLOCK
  | STOPWATCH
  | TIMER
deriving DecidableEq, Repr

/-- The module-level mutable state of src/index.tsx lines 8-20, together
with the start/pause button caption (`btnStart.textContent`) and a counter
of completion-signal firings.  `completeCount` counts the calls to
`handleTimerComplete`, which is how "the completion signal fires exactly
once" is observed. -/
structure St where
  currentMode : Mode
  swRunning : Bool
  swStartTime : Int
  swElapsedTime : Int
  timerRunning : Bool
  timerEndTime : Int
  timerRemaining : Int
  timerInitialSet : Int
  caption : String
  completeCount : Nat
deriving DecidableEq, Repr

/-- Initial state: src/index.tsx lines 8-20 (zero / not-running defaults,
mode CLOCK).  The initial button caption is the host page's markup, not in
src; it is irrelevant to every claim and set to "Start". -/
def init : St :=
  { currentMode := Mode.CLOCK
    swRunning := false
    swStartTime := 0
    swElapsedTime := 0
    timerRunning := false
    timerEndTime := 0
    timerRemaining := 0
    timerInitialSet := 0
    caption := "Start"
    completeCount := 0 }

/-- `handleTimerComplete` (src/index.tsx lines 84-91): sets the button
caption to "Start" and performs the one-shot alert flash, recorded here
by incrementing `completeCount`. -/
def handleTimerComplete (s : St) : St :=
  { s with caption := "Start", completeCount := s.completeCount + 1 }

/-- Formatting of `totalSecs` as `pad(totalSecs/3600) : pad(totalSecs%3600/60)
: pad(totalSecs%60)` (src/index.tsx lines 60-63 and 76-79).  The divisions
inside `pad` are floored by `pad` itself; the `%` is the JS remainder. -/
def fmtHMS (totalSecs : Int) : String :=
  pad (jsFloorDiv totalSecs 3600) ++ ":" ++
  pad (jsFloorDiv (jsRem totalSecs 3600) 60) ++ ":" ++
  pad (jsRem totalSecs 60)

/-- Clock-mode text (src/index.tsx lines 50-51): local hours/minutes/seconds
of `now`.  The timezone offset of `Date` is abstracted to UTC on the epoch
millisecond timestamp; no claim concerns Clock mode. -/
def clockText (now : Int) : String :=
  pad (jsRem (jsFloorDiv now 3600000) 24) ++ ":" ++
  pad (jsRem (jsFloorDiv now 60000) 60) ++ ":" ++
  pad (jsRem (jsFloorDiv now 1000) 60)

/-- `updateDisplay` (src/index.tsx lines 46-82): returns the state after
the call together with the text written to the display.  In Timer mode,
while running, a remaining time clamped to 0 transitions `timerRunning`
to false and calls `handleTimerComplete`. -/
def updateDisplay (now : Int) (s : St) : St × String :=
  match s.currentMode with
  | Mode.CLOCK => (s, clockText now)
  | Mode.STOPWATCH =>
      let elapsed := if s.swRunning then now - s.swStartTime else s.swElapsedTime
      let totalSecs := jsFloorDiv elapsed 1000
      (s, fmtHMS totalSecs)
  | Mode.TIMER =>
      let remaining := if s.timerRunning then max 0 (s.timerEndTime - now) else s.timerRemaining
      let s' := if s.timerRunning ∧ remaining = 0 then
                  handleTimerComplete { s with timerRunning := false }
                else s
      let totalSecs := jsCeilDiv remaining 1000
      (s', fmtHMS totalSecs)

/-- The `btnStart` click handler (src/index.tsx lines 180-211).  `h`, `m`,
`sec` are the values of the three duration input fields as read by
`parseInt(...) || 0` at this click; they are consulted only on a fresh
Timer start (banked remaining ≤ 0). -/
def btnStartClick (now : Int) (h m sec : Int) (s : St) : St :=
  match s.currentMode with
  | Mode.CLOCK => s
  | Mode.STOPWATCH =>
      if ¬ s.swRunning then
        { s with swStartTime := now - s.swElapsedTime, swRunning := true, caption := "Pause" }
      else
        { s with swElapsedTime := now - s.swStartTime, swRunning := false, caption := "Resume" }
  | Mode.TIMER =>
      if ¬ s.timerRunning then
        if s.timerRemaining ≤ 0 then
          let total := (h * 3600 + m * 60 + sec) * 1000
          if total ≤ 0 then
            { s with timerRemaining := total }
          else
            { s with timerRemaining := total, timerInitialSet := total,
                     timerEndTime := now + total, timerRunning := true, caption := "Pause" }
        else
          { s with timerEndTime := now + s.timerRemaining, timerRunning := true,
                   caption := "Pause" }
      else
        { s with timerRemaining := s.timerEndTime - now, timerRunning := false,
                 caption := "Resume" }

/-- The `btnReset` click handler (src/index.tsx lines 213-225): zeroes the
active mode's fields, sets the caption to "Start", then calls
`updateDisplay`. -/
def btnResetClick (now : Int) (s : St) : St :=
  let s' :=
    match s.currentMode with
    | Mode.STOPWATCH =>
        { s with swRunning := false, swElapsedTime := 0, swStartTime := 0, caption := "Start" }
    | Mode.TIMER =>
        { s with timerRunning := false, timerRemaining := 0, caption := "Start" }
    | Mode.CLOCK => s
  (updateDisplay now s').1

/-- `switchMode` (src/index.tsx lines 116-143): sets the active mode,
recomputes the start/pause button caption from the new mode's running flag
(Clock hides the button and leaves the caption alone), then calls
`updateDisplay`. -/
def switchMode (newMode : Mode) (now : Int) (s : St) : St :=
  let s1 := { s with currentMode := newMode }
  let s2 :=
    match newMode with
    | Mode.CLOCK => s1
    | Mode.STOPWATCH =>
        { s1 with caption := if s1.swRunning then "Pause" else "Start" }
    | Mode.TIMER =>
        { s1 with caption := if s1.timerRunning then "Pause" else "Start" }
  (updateDisplay now s2).1

/-- Discrete events delivered to the state machine: the periodic 100ms
redraw tick, a start/pause button press (with the duration inputs read at
that instant), a reset press, and a mode-button press. -/
inductive Ev where
  | tick (now : Int)
  | press (now : Int) (h m sec : Int)
  | reset (now : Int)
  | switch (now : Int) (newMode : Mode)
deriving DecidableEq, Repr

/-- One event applied to the state. -/
def step (s : St) : Ev → St
  | Ev.tick now => (updateDisplay now s).1
  | Ev.press now h m sec => btnStartClick now h m sec s
  | Ev.reset now => btnResetClick now s
  | Ev.switch now newMode => switchMode newMode now s

/-- A trace of events applied from a starting state. -/
def steps (s : St) (evs : List Ev) : St := evs.foldl step s

/-- A trace run from the initial state. -/
def run (evs : List Ev) : St := steps init evs

/-- Side condition on one event: duration inputs are non-negative (the
spec expects "non-negative integers only"), and a start/pause press on a
running Timer happens no later than the Timer's deadline. -/
def okEv (s : St) : Ev → Bool
  | Ev.press now h m sec =>
      decide (0 ≤ h) && decide (0 ≤ m) && decide (0 ≤ sec) &&
      (if s.currentMode = Mode.TIMER ∧ s.timerRunning = true then
         decide (now ≤ s.timerEndTime)
       else true)
  | _ => true

/-- `okEv` holding at every step along a trace. -/
def okTrace (s : St) : List Ev → Bool
  | [] => true
  | e :: evs => okEv s e && okTrace (step s e) evs

/-- A concrete running Timer whose deadline (t=1000) lies in the past of
the tick instants used below; the banked `timerRemaining` is 5000 ms as a
start at t=-4000 would leave it. -/
def sExpired : St :=
  { init with
      currentMode := Mode.TIMER
      timerRunning := true
      timerEndTime := 1000
      timerRemaining := 5000
      timerInitialSet := 5000
      caption := "Pause" }

/-- A concrete Timer-mode state that is not running and banks a negative
remaining time, as a pause 500 ms past the deadline leaves it. -/
def sNegRemaining : St :=
  { init with
      currentMode := Mode.TIMER
      timerRemaining := -500
      timerInitialSet := 1000
      caption := "Resume" }

/-- A concrete paused Stopwatch with 5000 ms banked. -/
def sPausedSw : St :=
  { init with
      swElapsedTime := 5000
      caption := "Resume" }

/- ### Helper lemmas -/

/-- The state part of `updateDisplay`: the state changes exactly when the
mode is Timer, the timer is running and the deadline has passed, in which
case `timerRunning` is cleared and `handleTimerComplete` runs. -/
theorem updateDisplay_fst (now : Int) (s : St) :
    (updateDisplay now s).1 =
      if s.currentMode = Mode.TIMER ∧ s.timerRunning = true ∧ s.timerEndTime ≤ now then
        handleTimerComplete { s with timerRunning := false }
      else s := by
  obtain ⟨cm, swr, sst, sel, tr, te, trem, tis, cap, cc⟩ := s
  cases cm <;> simp only [updateDisplay]
  · simp
  · simp
  · cases tr
    · simp
    · by_cases hle : te ≤ now
      · have hmax : max 0 (te - now) = 0 := by omega
        simp [hmax, hle]
      · have hmax : ¬ (max 0 (te - now) = 0) := by omega
        simp [hmax, hle]

/-- The displayed text in Timer mode: ceiling division of the remaining
milliseconds (deadline-clamped while running, banked otherwise). -/
theorem updateDisplay_snd_timer (now : Int) (s : St) (hm : s.currentMode = Mode.TIMER) :
    (updateDisplay now s).2 =
      fmtHMS (jsCeilDiv
        (if s.timerRunning then max 0 (s.timerEndTime - now) else s.timerRemaining) 1000) := by
  obtain ⟨cm, swr, sst, sel, tr, te, trem, tis, cap, cc⟩ := s
  cases hm
  cases tr <;> simp [updateDisplay]

/-- The displayed text in Stopwatch mode: floor division of the elapsed
milliseconds (live while running, banked otherwise). -/
theorem updateDisplay_snd_stopwatch (now : Int) (s : St)
    (hm : s.currentMode = Mode.STOPWATCH) :
    (updateDisplay now s).2 =
      fmtHMS (jsFloorDiv
        (if s.swRunning then now - s.swStartTime else s.swElapsedTime) 1000) := by
  obtain ⟨cm, swr, sst, sel, tr, te, trem, tis, cap, cc⟩ := s
  cases hm
  cases swr <;> simp [updateDisplay]

/-- Frame of the state part of `updateDisplay`: every field other than
`timerRunning`, `caption` and `completeCount` is untouched. -/
theorem updateDisplay_frame (now : Int) (s : St) :
    (updateDisplay now s).1.currentMode = s.currentMode ∧
    (updateDisplay now s).1.swRunning = s.swRunning ∧
    (updateDisplay now s).1.swStartTime = s.swStartTime ∧
    (updateDisplay now s).1.swElapsedTime = s.swElapsedTime ∧
    (updateDisplay now s).1.timerEndTime = s.timerEndTime ∧
    (updateDisplay now s).1.timerRemaining = s.timerRemaining ∧
    (updateDisplay now s).1.timerInitialSet = s.timerInitialSet := by
  rw [updateDisplay_fst]
  split <;> simp [handleTimerComplete]

/-- C1, counterexample.  In the trace: switch to Timer at t=0, start a
5-second timer at t=0, tick at t=6000 (past the deadline 5000, so the
expiry transition fires and "00:00:00" is shown), the claim says repeated
ticks keep reporting remaining = 0; but the tick at t=6100 displays the
stale banked `timerRemaining` of 5000 ms, i.e. "00:00:05", not
"00:00:00". -/
theorem C1_counterexample :
    (updateDisplay 6000 (run [Ev.switch 0 Mode.TIMER, Ev.press 0 0 0 5])).2 = "00:00:00" ∧
    (run [Ev.switch 0 Mode.TIMER, Ev.press 0 0 0 5, Ev.tick 6000]).timerRunning = false ∧
    (run [Ev.switch 0 Mode.TIMER, Ev.press 0 0 0 5, Ev.tick 6000]).completeCount = 1 ∧
    (updateDisplay 6100 (run [Ev.switch 0 Mode.TIMER, Ev.press 0 0 0 5, Ev.tick 6000])).2
      = "00:00:05" ∧
    "00:00:05" ≠ "00:00:00" := by decide

/-- C1 (amended): a tick on a running Timer whose deadline has passed
displays "00:00:00", clears `timerRunning`, and fires the completion
signal exactly once; any later tick leaves the state entirely unchanged
(in particular it does not re-fire the signal), but it displays the stale
banked `timerRemaining`, not 0. -/
theorem C1_expiry_once (s : St) (now now' : Int)
    (hm : s.currentMode = Mode.TIMER) (hr : s.timerRunning = true)
    (hd : s.timerEndTime ≤ now) :
    (updateDisplay now s).2 = "00:00:00" ∧
    (updateDisplay now s).1.timerRunning = false ∧
    (updateDisplay now s).1.completeCount = s.completeCount + 1 ∧
    (updateDisplay now' (updateDisplay now s).1).1 = (updateDisplay now s).1 ∧
    (updateDisplay now' (updateDisplay now s).1).2
      = fmtHMS (jsCeilDiv s.timerRemaining 1000) := by
  have hmax : max 0 (s.timerEndTime - now) = 0 := by omega
  have hfst : (updateDisplay now s).1 = handleTimerComplete { s with timerRunning := false } := by
    rw [updateDisplay_fst]
    simp [hm, hr, hd]
  refine ⟨?_, ?_, ?_, ?_, ?_⟩
  · rw [updateDisplay_snd_timer now s hm, hr]
    simp only [if_true, hmax]
    decide
  · rw [hfst]
    simp [handleTimerComplete]
  · rw [hfst]
    simp [handleTimerComplete]
  · rw [hfst, updateDisplay_fst]
    simp [handleTimerComplete, hm]
  · rw [hfst, updateDisplay_snd_timer]
    · simp [handleTimerComplete]
    · simp [handleTimerComplete, hm]

/-- C1 witness: the amended theorem applied at a concrete expired state. -/
theorem C1_witness :
    sExpired.currentMode = Mode.TIMER ∧
    sExpired.timerRunning = true ∧
    sExpired.timerEndTime ≤ 2000 ∧
    (updateDisplay 2000 sExpired).2 = "00:00:00" ∧
    (updateDisplay 2000 sExpired).1.completeCount = sExpired.completeCount + 1 ∧
    (updateDisplay 2100 (updateDisplay 2000 sExpired).1).1 = (updateDisplay 2000 sExpired).1 := by
  have h := C1_expiry_once sExpired 2000 2100 (by decide) (by decide) (by decide)
  exact ⟨by decide, by decide, by decide, h.1, h.2.2.1, h.2.2.2.1⟩

/-- C2: the Timer-expiry transition inside `updateDisplay` changes only
the running flag (plus the completion effect on caption and signal
counter); `timerRemaining`, `timerEndTime`, `timerInitialSet`, the mode
and all Stopwatch fields are untouched.  Every later not-running display
read shows the stale banked value, and a start/pause press with
`timerRemaining > 0` restarts a run of that stale duration, with a result
independent of the input fields. -/
theorem C2_expiry_frame (s : St) (now now' now2 h1 m1 s1 h2 m2 s2 : Int)
    (hm : s.currentMode = Mode.TIMER) (hr : s.timerRunning = true)
    (hd : s.timerEndTime ≤ now) :
    (updateDisplay now s).1.timerRunning = false ∧
    (updateDisplay now s).1.timerRemaining = s.timerRemaining ∧
    (updateDisplay now s).1.timerEndTime = s.timerEndTime ∧
    (updateDisplay now s).1.timerInitialSet = s.timerInitialSet ∧
    (updateDisplay now s).1.currentMode = s.currentMode ∧
    (updateDisplay now s).1.swRunning = s.swRunning ∧
    (updateDisplay now s).1.swStartTime = s.swStartTime ∧
    (updateDisplay now s).1.swElapsedTime = s.swElapsedTime ∧
    (updateDisplay now' (updateDisplay now s).1).2
      = fmtHMS (jsCeilDiv s.timerRemaining 1000) ∧
    (0 < s.timerRemaining →
       (btnStartClick now2 h1 m1 s1 (updateDisplay now s).1).timerRunning = true ∧
       (btnStartClick now2 h1 m1 s1 (updateDisplay now s).1).timerEndTime
         = now2 + s.timerRemaining ∧
       (btnStartClick now2 h1 m1 s1 (updateDisplay now s).1).timerRemaining
         = s.timerRemaining ∧
       btnStartClick now2 h1 m1 s1 (updateDisplay now s).1
         = btnStartClick now2 h2 m2 s2 (updateDisplay now s).1) := by
  obtain ⟨cm, swr, sst, sel, tr, te, trem, tis, cap, cc⟩ := s
  cases hm
  cases hr
  have hfst : (updateDisplay now
      ⟨Mode.TIMER, swr, sst, sel, true, te, trem, tis, cap, cc⟩).1
      = ⟨Mode.TIMER, swr, sst, sel, false, te, trem, tis, "Start", cc + 1⟩ := by
    rw [updateDisplay_fst]
    simp [handleTimerComplete, hd]
  rw [hfst]
  refine ⟨rfl, rfl, rfl, rfl, rfl, rfl, rfl, rfl, ?_, ?_⟩
  · rw [updateDisplay_snd_timer]
    · simp
    · rfl
  · intro hpos
    have hpos' : 0 < trem := hpos
    have hnle : ¬ (trem ≤ 0) := by omega
    simp [btnStartClick, hnle]

/-- C2 witness: the frame theorem applied at the concrete expired state. -/
theorem C2_witness :
    sExpired.currentMode = Mode.TIMER ∧
    sExpired.timerRunning = true ∧
    sExpired.timerEndTime ≤ 2000 ∧
    (updateDisplay 2000 sExpired).1.timerRemaining = sExpired.timerRemaining ∧
    (updateDisplay 2100 (updateDisplay 2000 sExpired).1).2
      = fmtHMS (jsCeilDiv sExpired.timerRemaining 1000) ∧
    (btnStartClick 3000 7 7 7 (updateDisplay 2000 sExpired).1).timerEndTime
      = 3000 + sExpired.timerRemaining := by
  have h := C2_expiry_frame sExpired 2000 2100 3000 7 7 7 9 9 9
    (by decide) (by decide) (by decide)
  exact ⟨by decide, by decide, by decide, h.2.1, h.2.2.2.2.2.2.2.2.1,
    (h.2.2.2.2.2.2.2.2.2 (by decide)).2.1⟩

/-- C3, counterexample.  Switching to Stopwatch while it is paused with
5000 ms banked is claimed to caption the button "Resume"; `switchMode`
derives the caption only from the running flag and yields "Start". -/
theorem C3_counterexample :
    sPausedSw.swRunning = false ∧
    sPausedSw.swElapsedTime = 5000 ∧
    (switchMode Mode.STOPWATCH 0 sPausedSw).caption = "Start" ∧
    (switchMode Mode.STOPWATCH 0 sPausedSw).caption ≠ "Resume" := by decide

/-- C3 (amended): on a mode switch the caption is derived from the new
mode's running flag only — "Pause" if that mode is running (for Timer:
running and not yet expired at the switch instant, since an expired
switch-in fires the completion handler which writes "Start"), and "Start"
otherwise; banked time plays no role and "Resume" is never produced by a
mode switch.  Switching to Clock hides the button and leaves the caption
unchanged. -/
theorem C3_caption (s : St) (now : Int) :
    (switchMode Mode.CLOCK now s).caption = s.caption ∧
    (switchMode Mode.STOPWATCH now s).caption
      = (if s.swRunning then "Pause" else "Start") ∧
    (switchMode Mode.TIMER now s).caption
      = (if s.timerRunning = true ∧ now < s.timerEndTime then "Pause" else "Start") := by
  obtain ⟨cm, swr, sst, sel, tr, te, trem, tis, cap, cc⟩ := s
  refine ⟨?_, ?_, ?_⟩
  · simp [switchMode, updateDisplay_fst]
  · cases swr <;> simp [switchMode, updateDisplay_fst]
  · cases tr
    · simp [switchMode, updateDisplay_fst]
    · by_cases hle : te ≤ now
      · simp [switchMode, updateDisplay_fst, handleTimerComplete, hle,
          show ¬ (now < te) by omega]
      · simp [switchMode, updateDisplay_fst, hle, show now < te by omega]

/-- A single well-conditioned event preserves non-negativity of the
banked `timerRemaining`. -/
theorem step_timerRemaining_nonneg (s : St) (e : Ev)
    (h0 : 0 ≤ s.timerRemaining) (hok : okEv s e = true) :
    0 ≤ (step s e).timerRemaining := by
  obtain ⟨cm, swr, sst, sel, tr, te, trem, tis, cap, cc⟩ := s
  have h0' : (0 : Int) ≤ trem := h0
  cases e with
  | tick now =>
      have h := (updateDisplay_frame now ⟨cm, swr, sst, sel, tr, te, trem, tis, cap, cc⟩).2.2.2.2.2.1
      simpa [step, h] using h0'
  | press now h m sec =>
      cases cm with
      | CLOCK => simpa [step, btnStartClick] using h0'
      | STOPWATCH =>
          cases swr <;> simpa [step, btnStartClick] using h0'
      | TIMER =>
          cases tr with
          | true =>
              simp [okEv] at hok
              simp [step, btnStartClick]
              omega
          | false =>
              simp [okEv] at hok
              by_cases hrem : trem ≤ 0
              · by_cases htot : (h * 3600 + m * 60 + sec) * 1000 ≤ 0
                · simp [step, btnStartClick, hrem, htot]
                  omega
                · simp [step, btnStartClick, hrem, htot]
                  omega
              · simpa [step, btnStartClick, hrem] using h0'
  | reset now =>
      cases cm with
      | CLOCK =>
          have h := (updateDisplay_frame now ⟨Mode.CLOCK, swr, sst, sel, tr, te, trem, tis, cap, cc⟩).2.2.2.2.2.1
          simpa [step, btnResetClick, h] using h0'
      | STOPWATCH =>
          have h := (updateDisplay_frame now
            ⟨Mode.STOPWATCH, false, 0, 0, tr, te, trem, tis, "Start", cc⟩).2.2.2.2.2.1
          simpa [step, btnResetClick, h] using h0'
      | TIMER =>
          have h := (updateDisplay_frame now
            ⟨Mode.TIMER, swr, sst, sel, false, te, 0, tis, "Start", cc⟩).2.2.2.2.2.1
          simp [step, btnResetClick, h]
  | switch now nm =>
      cases nm with
      | CLOCK =>
          have h := (updateDisplay_frame now ⟨Mode.CLOCK, swr, sst, sel, tr, te, trem, tis, cap, cc⟩).2.2.2.2.2.1
          simpa [step, switchMode, h] using h0'
      | STOPWATCH =>
          have h := (updateDisplay_frame now
            ⟨Mode.STOPWATCH, swr, sst, sel, tr, te, trem, tis,
              if swr then "Pause" else "Start", cc⟩).2.2.2.2.2.1
          simpa [step, switchMode, h] using h0'
      | TIMER =>
          have h := (updateDisplay_frame now
            ⟨Mode.TIMER, swr, sst, sel, tr, te, trem, tis,
              if tr then "Pause" else "Start", cc⟩).2.2.2.2.2.1
          simpa [step, switchMode, h] using h0'

/-- Non-negativity of `timerRemaining` along every well-conditioned
trace. -/
theorem steps_timerRemaining_nonneg (evs : List Ev) :
    ∀ s : St, 0 ≤ s.timerRemaining → okTrace s evs = true →
      0 ≤ (steps s evs).timerRemaining := by
  induction evs with
  | nil =>
      intro s h0 _
      simpa [steps] using h0
  | cons e evs ih =>
      intro s h0 hok
      rw [okTrace, Bool.and_eq_true] at hok
      exact ih (step s e) (step_timerRemaining_nonneg s e h0 hok.1) hok.2

/-- C4, counterexample.  Trace: switch to Timer at t=0, start a 1-second
timer at t=0 (deadline 1000), redraw tick at t=999 (no expiry yet), then
a pause press at t=1050 — after the deadline but before the next ~100ms
tick.  The pause banks the raw subtraction `timerEndTime - now = -50`,
so a state with `timerRemaining < 0` is reachable by the defined
operations. -/
theorem C4_counterexample :
    (run [Ev.switch 0 Mode.TIMER, Ev.press 0 0 0 1, Ev.tick 999,
          Ev.press 1050 0 0 0]).timerRemaining = -50 ∧
    (run [Ev.switch 0 Mode.TIMER, Ev.press 0 0 0 1, Ev.tick 999,
          Ev.press 1050 0 0 0]).timerRemaining < 0 := by decide

/-- C4 (amended): `timerRemaining ≥ 0` holds in every state reachable
from the initial state by traces in which the duration inputs are
non-negative and every start/pause press on a running Timer happens no
later than the Timer's deadline; a press after the deadline (but before
the expiry tick) banks the raw negative difference instead. -/
theorem C4_invariant (evs : List Ev) (hok : okTrace init evs = true) :
    0 ≤ (run evs).timerRemaining :=
  steps_timerRemaining_nonneg evs init (by decide) hok

/-- C4 witness: a well-conditioned concrete trace (pause at t=900, before
the deadline 1000) ends with non-negative `timerRemaining`. -/
theorem C4_witness :
    okTrace init [Ev.switch 0 Mode.TIMER, Ev.press 0 0 0 1, Ev.tick 500,
      Ev.press 900 0 0 0] = true ∧
    0 ≤ (run [Ev.switch 0 Mode.TIMER, Ev.press 0 0 0 1, Ev.tick 500,
      Ev.press 900 0 0 0]).timerRemaining :=
  ⟨by decide, C4_invariant [Ev.switch 0 Mode.TIMER, Ev.press 0 0 0 1, Ev.tick 500,
      Ev.press 900 0 0 0] (by decide)⟩

/-- C5, counterexample.  From the reachable paused state banking
`timerRemaining = -500` (a pause 500 ms past the deadline), a start press
with all-zero inputs has total `(0*3600+0*60+0)*1000 = 0 ≤ 0` and is
claimed to abort "with no state change"; but the handler assigns
`timerRemaining := 0` before the guard returns, so the state does
change. -/
theorem C5_counterexample :
    sNegRemaining.currentMode = Mode.TIMER ∧
    sNegRemaining.timerRunning = false ∧
    sNegRemaining.timerRemaining ≤ 0 ∧
    ((0 * 3600 + 0 * 60 + 0) * 1000 : Int) ≤ 0 ∧
    btnStartClick 0 0 0 0 sNegRemaining ≠ sNegRemaining ∧
    (btnStartClick 0 0 0 0 sNegRemaining).timerRemaining = 0 ∧
    sNegRemaining.timerRemaining = -500 := by decide

/-- C5 (amended): a fresh Timer start attempt (not running, banked
remaining ≤ 0) whose configured total `(h*3600+m*60+s)*1000` is ≤ 0 does
not start the run: `timerRunning` stays false and the only state change
is that `timerRemaining` is overwritten with the computed total; in
particular, starting with all-zero inputs leaves `running = false` and
`remaining = 0`. -/
theorem C5_zero_start (s : St) (now h m sec : Int)
    (hm : s.currentMode = Mode.TIMER) (hr : s.timerRunning = false)
    (hrem : s.timerRemaining ≤ 0)
    (htot : (h * 3600 + m * 60 + sec) * 1000 ≤ 0) :
    btnStartClick now h m sec s
      = { s with timerRemaining := (h * 3600 + m * 60 + sec) * 1000 } ∧
    (btnStartClick now h m sec s).timerRunning = false ∧
    (btnStartClick now 0 0 0 s).timerRunning = false ∧
    (btnStartClick now 0 0 0 s).timerRemaining = 0 := by
  obtain ⟨cm, swr, sst, sel, tr, te, trem, tis, cap, cc⟩ := s
  cases hm
  cases hr
  have hrem' : trem ≤ 0 := hrem
  refine ⟨?_, ?_, ?_, ?_⟩ <;>
    simp [btnStartClick, hrem', htot]

/-- C5 witness: the amended theorem at the concrete negative-remaining
state with all-zero inputs. -/
theorem C5_witness :
    sNegRemaining.currentMode = Mode.TIMER ∧
    sNegRemaining.timerRunning = false ∧
    sNegRemaining.timerRemaining ≤ 0 ∧
    ((0 * 3600 + 0 * 60 + 0) * 1000 : Int) ≤ 0 ∧
    (btnStartClick 7 0 0 0 sNegRemaining).timerRunning = false ∧
    (btnStartClick 7 0 0 0 sNegRemaining).timerRemaining = 0 := by
  have h := C5_zero_start sNegRemaining 7 0 0 0 (by decide) (by decide) (by decide) (by decide)
  exact ⟨by decide, by decide, by decide, by decide, h.2.2.1, h.2.2.2⟩

/-- C6: a mode switch never touches the Stopwatch's timing fields, and
leaves every Timer field unchanged whenever the new (active) mode is not
Timer; in particular a Stopwatch-running → Timer → Stopwatch round trip
preserves the Stopwatch's running flag, start instant and banked elapsed
time.  (Switching to Timer itself can run the Timer's own expiry
transition, which concerns the newly active mode, not a background
one.) -/
theorem C6_switch_frame (s : St) (m : Mode) (now now' : Int) :
    (switchMode m now s).swRunning = s.swRunning ∧
    (switchMode m now s).swStartTime = s.swStartTime ∧
    (switchMode m now s).swElapsedTime = s.swElapsedTime ∧
    (m ≠ Mode.TIMER →
      (switchMode m now s).timerRunning = s.timerRunning ∧
      (switchMode m now s).timerEndTime = s.timerEndTime ∧
      (switchMode m now s).timerRemaining = s.timerRemaining ∧
      (switchMode m now s).timerInitialSet = s.timerInitialSet) ∧
    (switchMode Mode.STOPWATCH now' (switchMode Mode.TIMER now s)).swRunning
      = s.swRunning ∧
    (switchMode Mode.STOPWATCH now' (switchMode Mode.TIMER now s)).swStartTime
      = s.swStartTime ∧
    (switchMode Mode.STOPWATCH now' (switchMode Mode.TIMER now s)).swElapsedTime
      = s.swElapsedTime := by
  obtain ⟨cm, swr, sst, sel, tr, te, trem, tis, cap, cc⟩ := s
  have hsw : ∀ (mm : Mode) (n : Int) (t : St),
      (switchMode mm n t).swRunning = t.swRunning ∧
      (switchMode mm n t).swStartTime = t.swStartTime ∧
      (switchMode mm n t).swElapsedTime = t.swElapsedTime := by
    intro mm n t
    obtain ⟨cm', swr', sst', sel', tr', te', trem', tis', cap', cc'⟩ := t
    cases mm <;>
      · simp [switchMode, updateDisplay_fst, handleTimerComplete]
        try split_ifs <;> simp [handleTimerComplete]
  refine ⟨(hsw m now _).1, (hsw m now _).2.1, (hsw m now _).2.2, ?_, ?_, ?_, ?_⟩
  · intro hne
    cases m with
    | TIMER => exact absurd rfl hne
    | CLOCK => simp [switchMode, updateDisplay_fst]
    | STOPWATCH => simp [switchMode, updateDisplay_fst]
  · rw [(hsw Mode.STOPWATCH now' _).1, (hsw Mode.TIMER now _).1]
  · rw [(hsw Mode.STOPWATCH now' _).2.1, (hsw Mode.TIMER now _).2.1]
  · rw [(hsw Mode.STOPWATCH now' _).2.2, (hsw Mode.TIMER now _).2.2]

/-- C6 witness: a running Stopwatch survives a switch to Timer and back
with running flag, start instant and banked time intact. -/
theorem C6_witness :
    (switchMode Mode.STOPWATCH 700
      (switchMode Mode.TIMER 600 { init with swRunning := true, swStartTime := 123 })).swRunning
      = ({ init with swRunning := true, swStartTime := 123 } : St).swRunning ∧
    (switchMode Mode.STOPWATCH 700
      (switchMode Mode.TIMER 600 { init with swRunning := true, swStartTime := 123 })).swStartTime
      = ({ init with swRunning := true, swStartTime := 123 } : St).swStartTime ∧
    (switchMode Mode.CLOCK 800 { init with swRunning := true, swStartTime := 123 }).timerRemaining
      = ({ init with swRunning := true, swStartTime := 123 } : St).timerRemaining := by
  have h := C6_switch_frame { init with swRunning := true, swStartTime := 123 }
    Mode.CLOCK 800 600
  have h2 := C6_switch_frame { init with swRunning := true, swStartTime := 123 }
    Mode.TIMER 600 600
  exact ⟨(C6_switch_frame _ Mode.TIMER 600 700).2.2.2.2.1,
    (C6_switch_frame _ Mode.TIMER 600 700).2.2.2.2.2.1,
    (h.2.2.2.1 (by decide)).2.2.1⟩

/-- C7: reset is scoped to the active mode.  With Stopwatch active it
zeroes the Stopwatch (running := false, banked time and start instant 0)
and leaves every Timer field alone; with Timer active it sets
running := false and remaining := 0 and leaves every Stopwatch field
alone.  No hypothesis about running is needed: it holds whether or not
the mode is running. -/
theorem C7_reset_scoped (s : St) (now : Int) :
    (s.currentMode = Mode.STOPWATCH →
      (btnResetClick now s).swRunning = false ∧
      (btnResetClick now s).swElapsedTime = 0 ∧
      (btnResetClick now s).swStartTime = 0 ∧
      (btnResetClick now s).timerRunning = s.timerRunning ∧
      (btnResetClick now s).timerEndTime = s.timerEndTime ∧
      (btnResetClick now s).timerRemaining = s.timerRemaining ∧
      (btnResetClick now s).timerInitialSet = s.timerInitialSet) ∧
    (s.currentMode = Mode.TIMER →
      (btnResetClick now s).timerRunning = false ∧
      (btnResetClick now s).timerRemaining = 0 ∧
      (btnResetClick now s).timerEndTime = s.timerEndTime ∧
      (btnResetClick now s).timerInitialSet = s.timerInitialSet ∧
      (btnResetClick now s).swRunning = s.swRunning ∧
      (btnResetClick now s).swStartTime = s.swStartTime ∧
      (btnResetClick now s).swElapsedTime = s.swElapsedTime) := by
  obtain ⟨cm, swr, sst, sel, tr, te, trem, tis, cap, cc⟩ := s
  cases cm with
  | CLOCK => exact ⟨fun hcm => by simp at hcm, fun hcm => by simp at hcm⟩
  | STOPWATCH =>
      refine ⟨fun _ => ?_, fun hcm => by simp at hcm⟩
      simp [btnResetClick, updateDisplay_fst]
  | TIMER =>
      refine ⟨fun hcm => by simp at hcm, fun _ => ?_⟩
      simp [btnResetClick, updateDisplay_fst]

/-- C7 witness: reset applied at a running Stopwatch and at the expired
running Timer. -/
theorem C7_witness :
    ({ sExpired with currentMode := Mode.STOPWATCH } : St).currentMode = Mode.STOPWATCH ∧
    (btnResetClick 0 { sExpired with currentMode := Mode.STOPWATCH }).swElapsedTime = 0 ∧
    (btnResetClick 0 { sExpired with currentMode := Mode.STOPWATCH }).timerRemaining
      = ({ sExpired with currentMode := Mode.STOPWATCH } : St).timerRemaining ∧
    sExpired.currentMode = Mode.TIMER ∧
    (btnResetClick 0 sExpired).timerRunning = false ∧
    (btnResetClick 0 sExpired).timerRemaining = 0 ∧
    (btnResetClick 0 sExpired).swElapsedTime = sExpired.swElapsedTime := by
  have h1 := (C7_reset_scoped { sExpired with currentMode := Mode.STOPWATCH } 0).1 (by decide)
  have h2 := (C7_reset_scoped sExpired 0).2 (by decide)
  exact ⟨by decide, h1.2.1, h1.2.2.2.2.2.1, by decide, h2.1, h2.2.1, h2.2.2.2.2.2.2⟩

/-- On non-negative operands the embedded JS operators agree with
`Nat` division. -/
theorem jsFloorDiv_ofNat (a b : Nat) :
    jsFloorDiv (Int.ofNat a) (Int.ofNat b) = Int.ofNat (a / b) := rfl

/-- On non-negative operands the embedded JS remainder agrees with
`Nat` mod. -/
theorem jsRem_ofNat (a b : Nat) :
    jsRem (Int.ofNat a) (Int.ofNat b) = Int.ofNat (a % b) := rfl

/-- C8: the display computation floors the Stopwatch's elapsed
milliseconds but takes the ceiling of the Timer's remaining milliseconds;
hence a running countdown with any positive remaining time renders at
least one second — it never shows zero before the duration is fully
exhausted. -/
theorem C8_floor_ceil (s : St) (now : Int) :
    (s.currentMode = Mode.STOPWATCH →
      (updateDisplay now s).2 = fmtHMS (jsFloorDiv
        (if s.swRunning then now - s.swStartTime else s.swElapsedTime) 1000)) ∧
    (s.currentMode = Mode.TIMER →
      (updateDisplay now s).2 = fmtHMS (jsCeilDiv
        (if s.timerRunning then max 0 (s.timerEndTime - now) else s.timerRemaining) 1000)) ∧
    (s.currentMode = Mode.TIMER → s.timerRunning = true → 0 < s.timerEndTime - now →
      1 ≤ jsCeilDiv (max 0 (s.timerEndTime - now)) 1000 ∧
      (updateDisplay now s).2 = fmtHMS (jsCeilDiv (s.timerEndTime - now) 1000)) := by
  refine ⟨fun hm => updateDisplay_snd_stopwatch now s hm,
          fun hm => updateDisplay_snd_timer now s hm, fun hm hr hpos => ⟨?_, ?_⟩⟩
  · have hmax : max 0 (s.timerEndTime - now) = s.timerEndTime - now := by omega
    rw [hmax]
    unfold jsCeilDiv
    omega
  · have hmax : max 0 (s.timerEndTime - now) = s.timerEndTime - now := by omega
    rw [updateDisplay_snd_timer now s hm, hr]
    simp [hmax]

/-- C8 witness: a running Timer with 400 ms left (deadline 1000, read at
600) displays "00:00:01", not "00:00:00". -/
theorem C8_witness :
    ({ init with currentMode := Mode.TIMER, timerRunning := true, timerEndTime := 1000 } : St).currentMode = Mode.TIMER ∧
    (0 : Int) < 1000 - 600 ∧
    1 ≤ jsCeilDiv (max 0 ((1000 : Int) - 600)) 1000 ∧
    (updateDisplay 600 { init with currentMode := Mode.TIMER, timerRunning := true, timerEndTime := 1000 }).2
      = fmtHMS (jsCeilDiv ((1000 : Int) - 600) 1000) ∧
    fmtHMS (jsCeilDiv ((1000 : Int) - 600) 1000) = "00:00:01" := by
  have h := (C8_floor_ceil
    { init with currentMode := Mode.TIMER, timerRunning := true, timerEndTime := 1000 }
    600).2.2 (by decide) (by decide) (by decide)
  exact ⟨by decide, by decide, h.1, h.2, by decide⟩

/-- C9: the Stopwatch toggle: starting from not-running sets
`swStartTime = now - swElapsedTime` and `swRunning = true`; the next
toggle banks `swElapsedTime = now - swStartTime` and clears `swRunning`.
Toggling start→pause→start→pause at instants n0, n1, n2, n3 banks
`(n1 - n0) + (n3 - n2)` on top of the initially banked amount, and the
banked value does not decrease across the second pause/resume cycle.
The duration inputs play no role in Stopwatch mode. -/
theorem C9_sw_toggle (s : St) (n0 n1 n2 n3 h m sec : Int)
    (hm : s.currentMode = Mode.STOPWATCH) (hr : s.swRunning = false) :
    (btnStartClick n0 h m sec s).swRunning = true ∧
    (btnStartClick n0 h m sec s).swStartTime = n0 - s.swElapsedTime ∧
    (btnStartClick n1 h m sec (btnStartClick n0 h m sec s)).swRunning = false ∧
    (btnStartClick n1 h m sec (btnStartClick n0 h m sec s)).swElapsedTime
      = (n1 - n0) + s.swElapsedTime ∧
    (btnStartClick n3 h m sec (btnStartClick n2 h m sec
        (btnStartClick n1 h m sec (btnStartClick n0 h m sec s)))).swElapsedTime
      = (n1 - n0) + (n3 - n2) + s.swElapsedTime ∧
    (n2 ≤ n3 →
      (btnStartClick n1 h m sec (btnStartClick n0 h m sec s)).swElapsedTime
        ≤ (btnStartClick n3 h m sec (btnStartClick n2 h m sec
            (btnStartClick n1 h m sec (btnStartClick n0 h m sec s)))).swElapsedTime) := by
  obtain ⟨cm, swr, sst, sel, tr, te, trem, tis, cap, cc⟩ := s
  cases hm
  cases hr
  refine ⟨?_, ?_, ?_, ?_, ?_, ?_⟩
  · simp [btnStartClick]
  · simp [btnStartClick]
  · simp [btnStartClick]
  · simp [btnStartClick]
    omega
  · simp [btnStartClick]
    omega
  · intro hle
    simp [btnStartClick]
    omega

/-- C9 witness: toggling at 0, 1000, 5000, 7000 from a zeroed Stopwatch
banks 1000 + 2000 = 3000 ms. -/
theorem C9_witness :
    ({ init with currentMode := Mode.STOPWATCH } : St).currentMode = Mode.STOPWATCH ∧
    ({ init with currentMode := Mode.STOPWATCH } : St).swRunning = false ∧
    (btnStartClick 7000 0 0 0 (btnStartClick 5000 0 0 0
        (btnStartClick 1000 0 0 0 (btnStartClick 0 0 0 0
          { init with currentMode := Mode.STOPWATCH })))).swElapsedTime
      = (1000 - 0) + (7000 - 5000) + ({ init with currentMode := Mode.STOPWATCH } : St).swElapsedTime := by
  have h := C9_sw_toggle { init with currentMode := Mode.STOPWATCH }
    0 1000 5000 7000 0 0 0 (by decide) (by decide)
  exact ⟨by decide, by decide, h.2.2.2.2.1⟩

/-- C10: formatting a Stopwatch elapsed time of `d ≥ 0` milliseconds
renders `fmtHMS` of `t = floor(d/1000)` total seconds, whose three
numeric fields are `t/3600` (hours, unbounded, no wrap at 24),
`(t%3600)/60` (minutes) and `t%60` (seconds); the minutes and seconds
fields lie in [0, 59] and recombining the fields as `h*3600 + m*60 + s`
yields exactly `t`. -/
theorem C10_format_parse (d : Nat) (now : Int) :
    (updateDisplay now { init with currentMode := Mode.STOPWATCH, swElapsedTime := Int.ofNat d }).2
      = fmtHMS (jsFloorDiv (Int.ofNat d) 1000) ∧
    jsFloorDiv (Int.ofNat d) 1000 = Int.ofNat (d / 1000) ∧
    jsFloorDiv (jsFloorDiv (Int.ofNat d) 1000) 3600 * 3600
      + jsFloorDiv (jsRem (jsFloorDiv (Int.ofNat d) 1000) 3600) 60 * 60
      + jsRem (jsFloorDiv (Int.ofNat d) 1000) 60
      = jsFloorDiv (Int.ofNat d) 1000 ∧
    0 ≤ jsFloorDiv (jsRem (jsFloorDiv (Int.ofNat d) 1000) 3600) 60 ∧
    jsFloorDiv (jsRem (jsFloorDiv (Int.ofNat d) 1000) 3600) 60 ≤ 59 ∧
    0 ≤ jsRem (jsFloorDiv (Int.ofNat d) 1000) 60 ∧
    jsRem (jsFloorDiv (Int.ofNat d) 1000) 60 ≤ 59 := by
  have h1000 : jsFloorDiv (Int.ofNat d) 1000 = Int.ofNat (d / 1000) := rfl
  have h3600 : jsFloorDiv (Int.ofNat (d / 1000)) 3600 = Int.ofNat (d / 1000 / 3600) := rfl
  have hr3600 : jsRem (Int.ofNat (d / 1000)) 3600 = Int.ofNat (d / 1000 % 3600) := rfl
  have h60 : jsFloorDiv (Int.ofNat (d / 1000 % 3600)) 60
      = Int.ofNat (d / 1000 % 3600 / 60) := rfl
  have hr60 : jsRem (Int.ofNat (d / 1000)) 60 = Int.ofNat (d / 1000 % 60) := rfl
  refine ⟨?_, h1000, ?_, ?_, ?_, ?_, ?_⟩
  · rw [updateDisplay_snd_stopwatch]
    · simp [init]
    · rfl
  · rw [h1000, h3600, hr3600, h60, hr60]
    simp only [Int.ofNat_eq_coe]
    omega
  · rw [h1000, hr3600, h60]
    simp only [Int.ofNat_eq_coe]
    omega
  · rw [h1000, hr3600, h60]
    simp only [Int.ofNat_eq_coe]
    omega
  · rw [h1000, hr60]
    simp only [Int.ofNat_eq_coe]
    omega
  · rw [h1000, hr60]
    simp only [Int.ofNat_eq_coe]
    omega

end ZenClock
